import Mathlib

/-!
Verification development for the Warbler micro-blogging application
(`app.py`, `models.py`).

The relational store is embedded shallowly: each SQLAlchemy table row
becomes a Lean structure and the store is a record of lists of rows.
Text columns are modelled as `String`, except the password column which
is modelled as `List Char` so that the structure of a bcrypt credential
("$2b$12$" prefix, embedded salt, digest) is visible to proofs.
Machine-generated surrogate keys that no code path ever reads (the
`likes.id` autoincrement column) are omitted; all columns that the
handlers read or write are kept.

Each Flask view function becomes a pure function from its route
arguments, the session (the optional logged-in user id, as stored under
`CURR_USER_KEY`) and the current store to an `Outcome` paired with the
store after the request.  Database constraint checking that SQLAlchemy
performs at `db.session.commit()` is made explicit at each commit point:
when the flushed rows violate a uniqueness constraint the commit raises
`IntegrityError`; a handler that does not catch it produces the
`integrityError` outcome and the transaction rolls back, leaving the
store unchanged.
-/

/-- Row of the `users` table (`models.py`, class `User`). -/
structure UserRec where
  id : Nat
  email : String
  username : String
  image_url : String
  header_image_url : String
  bio : String
  location : String
  /-- Stored credential: the bcrypt hash produced at signup. -/
  password : List Char
deriving DecidableEq

/-- Row of the `messages` table (`models.py`, class `Message`).
Timestamps are modelled as natural clock readings. -/
structure Message where
  id : Nat
  text : String
  timestamp : Nat
  user_id : Nat
deriving DecidableEq

/-- Row of the `follows` table (`models.py`, class `Follows`):
composite primary key (user_being_followed_id, user_following_id). -/
structure Follow where
  user_being_followed_id : Nat
  user_following_id : Nat
deriving DecidableEq

/-- Row of the `likes` table (`models.py`, class `Likes`).  The surrogate
autoincrement `id` column is omitted: no handler or query reads it.
`message_id` carries a UNIQUE constraint. -/
structure Like where
  user_id : Nat
  message_id : Nat
deriving DecidableEq

/-- The persistent store: one list of rows per table. -/
structure DB where
  users : List UserRec
  messages : List Message
  follows : List Follow
  likes : List Like
deriving DecidableEq

/-- Result of one request, as observable at the HTTP boundary.
`redirect fl` is a redirect carrying the optional flashed notice `fl`;
`render fl` re-renders a form template; `renderMessages` renders a page
whose data is a message list (home feed, likes page); `integrityError`,
`valueError` and `unmappedInstanceError` are unhandled exceptions
escaping the handler; `noResponse` is a handler falling off the end and
returning `None`. -/
inductive Outcome where
  | redirect (flash : Option String)
  | render (flash : Option String)
  | renderMessages (msgs : List Message)
  | renderPage
  | notFound
  | integrityError
  | valueError
  | unmappedInstanceError
  | noResponse
deriving DecidableEq

/-- The uniform unauthorized result: `flash("Access unauthorized.",
"danger"); return redirect(url_for('homepage'))`. -/
def unauthorizedRedirect : Outcome := .redirect (some "Access unauthorized.")

/-- `add_user_to_g` (`app.py`): resolve `g.user` from the session.
`User.query.get` returns `None` when the id is absent, so a stale
session behaves like an anonymous one. -/
def gUser (sess : Option Nat) (db : DB) : Option UserRec :=
  match sess with
  | some uid => db.users.find? (fun u => u.id == uid)
  | none => none

/-- UNIQUE constraint on `likes.message_id`: the flushed like rows are
accepted only when no message id occurs twice. -/
def likesUnique (likes : List Like) : Prop :=
  (likes.map (fun l => l.message_id)).Nodup

instance (likes : List Like) : Decidable (likesUnique likes) := by
  unfold likesUnique; infer_instance

/-- Composite primary key on `follows`: no duplicate edge. -/
def followsUnique (follows : List Follow) : Prop := follows.Nodup

instance (follows : List Follow) : Decidable (followsUnique follows) := by
  unfold followsUnique; infer_instance

/-- UNIQUE constraints on `users.username` and `users.email`. -/
def usersUnique (users : List UserRec) : Prop :=
  (users.map (fun u => u.username)).Nodup ∧ (users.map (fun u => u.email)).Nodup

instance (users : List UserRec) : Decidable (usersUnique users) := by
  unfold usersUnique; infer_instance

/-- Does a like row link user `uid` to message `mid`? -/
def likeMatches (uid mid : Nat) (l : Like) : Bool :=
  l.user_id == uid && l.message_id == mid

/-- Stable ordering `ORDER BY messages.timestamp DESC` (ties left in
list order, which SQL leaves unspecified): insertion into an already
descending list. -/
def insertByTimestamp (m : Message) : List Message → List Message
  | [] => [m]
  | x :: xs =>
    if x.timestamp < m.timestamp then m :: x :: xs
    else x :: insertByTimestamp m xs

/-- `ORDER BY messages.timestamp DESC` over a row list. -/
def orderByTimestampDesc (l : List Message) : List Message :=
  l.foldr insertByTimestamp []

/-- SQLAlchemy legacy `Query` entity deduplication: when the query
selects a single full entity (`Message.query...all()`), duplicate
result rows produced by a join are collapsed in Python to the first
occurrence of each entity, after the SQL-side ORDER BY and LIMIT. -/
def dedupKeepFirst : List Message → List Message
  | [] => []
  | x :: xs => x :: (dedupKeepFirst xs).filter (fun y => y ≠ x)

/-! ### Credential store (flask_bcrypt, as used by `models.py`) -/

/-- The fixed bcrypt version/cost header of every generated hash. -/
def bcryptHeader : List Char := ['$', '2', 'b', '$', '1', '2', '$']

/-- Model of `bcrypt.generate_password_hash(password).decode('UTF-8')`:
the output is the header, the random salt chosen for this call (modelled
as `salt` repetitions of a salt character, so distinct salts give
distinct hashes), a separator, and the password digest.  The digest is
modelled by the password itself: one-wayness is not expressible in the
embedding, and nothing below depends on it. -/
def generate_password_hash (salt : Nat) (pw : List Char) : List Char :=
  bcryptHeader ++ List.replicate salt 'a' ++ '$' :: pw

/-- Model of `bcrypt.check_password_hash(stored, password)`: bcrypt
re-derives the hash of `pw` using the salt embedded in `stored` and
compares.  The embedded salt is what stands between the header and the
separator. -/
def check_password_hash (stored : List Char) (pw : List Char) : Bool :=
  let salt := ((stored.drop bcryptHeader.length).takeWhile (fun c => c ≠ '$')).length
  stored == generate_password_hash salt pw

/-! ### models.py classmethods -/

/-- `User.signup` (`models.py`): hash the password, build the row, add it
to the session.  The fresh id the database sequence will assign and the
salt bcrypt draws are passed as parameters. -/
def User_signup (newId salt : Nat) (username email : String) (pw : List Char)
    (image_url : String) : UserRec :=
  { id := newId
    email := email
    username := username
    image_url := image_url
    header_image_url := "/static/images/warbler-hero.jpg"
    bio := ""
    location := ""
    password := generate_password_hash salt pw }

/-- `User.authenticate` (`models.py`): first user with this username,
and only if the stored hash verifies against the password; `False`
(here `none`) otherwise. -/
def User_authenticate (username : String) (pw : List Char) (db : DB) :
    Option UserRec :=
  match db.users.find? (fun u => u.username == username) with
  | some user => if check_password_hash user.password pw then some user else none
  | none => none

/-- `Message.timestamp`'s column default (`models.py`):
`default=datetime.utcnow()` is a *call*, evaluated once when the module
is loaded; the resulting constant is the default applied to every later
row.  (`default=datetime.utcnow`, without the call, would evaluate at
each insert.) -/
def messageTimestampDefault (moduleLoadTime : Nat) : Nat := moduleLoadTime

/-- Construction of a `Message` row: an explicitly supplied timestamp
wins, otherwise the column default applies.  `now` is the clock at the
moment of creation; the source's default ignores it. -/
def createMessage (moduleLoadTime now newId : Nat) (text : String)
    (uid : Nat) (explicitTs : Option Nat) : Message :=
  { id := newId
    text := text
    timestamp := explicitTs.getD (messageTimestampDefault moduleLoadTime)
    user_id := uid }

/-! ### app.py view functions -/

/-- `signup` route, submission path (`app.py`): `User.signup` then
`db.session.commit()`; `IntegrityError` is caught and re-presents the
form with "Username already taken". -/
def signup_route (newId salt : Nat) (username email : String) (pw : List Char)
    (image_url : String) (db : DB) : Outcome × DB :=
  let user := User_signup newId salt username email pw image_url
  let users' := db.users ++ [user]
  if usersUnique users' then
    (.redirect none, { db with users := users' })
  else
    (.render (some "Username already taken"), db)

/-- `users_likes` route (`app.py`): `GET /users/<user_id>/likes`.
`User.query.get_or_404(user_id)` runs before any authentication check;
when `g.user` is set, the rendered messages are those joined to like
rows with `Likes.user_id == g.user.id` — the *viewer's* likes — ordered
by timestamp descending, limited to 100.  There is no `else` branch:
an anonymous request falls through and the view returns `None`. -/
def users_likes (user_id : Nat) (sess : Option Nat) (db : DB) : Outcome × DB :=
  match db.users.find? (fun u => u.id == user_id) with
  | none => (.notFound, db)
  | some _ =>
    match gUser sess db with
    | some g =>
      let rows := db.messages.flatMap (fun m =>
        (db.likes.filter (fun l => m.id == l.message_id)).map (fun l => (m, l)))
      let rows := rows.filter (fun ml => ml.2.user_id == g.id)
      let msgs := (orderByTimestampDesc (rows.map Prod.fst)).take 100
      (.renderMessages msgs, db)
    | none => (.noResponse, db)

/-- `show_following` route (`app.py`): auth gate, then render. -/
def show_following (user_id : Nat) (sess : Option Nat) (db : DB) : Outcome × DB :=
  match gUser sess db with
  | none => (unauthorizedRedirect, db)
  | some _ =>
    match db.users.find? (fun u => u.id == user_id) with
    | none => (.notFound, db)
    | some _ => (.renderPage, db)

/-- `users_followers` route (`app.py`): auth gate, then render. -/
def users_followers (user_id : Nat) (sess : Option Nat) (db : DB) : Outcome × DB :=
  match gUser sess db with
  | none => (unauthorizedRedirect, db)
  | some _ =>
    match db.users.find? (fun u => u.id == user_id) with
    | none => (.notFound, db)
    | some _ => (.renderPage, db)

/-- `add_follow` route (`app.py`): auth gate; 404 on missing target;
`g.user.following.append(followed_user)` inserts the edge
(followed = follow_id, follower = g.user); the commit is not wrapped in
try/except, so a duplicate edge surfaces as `IntegrityError`. -/
def add_follow (follow_id : Nat) (sess : Option Nat) (db : DB) : Outcome × DB :=
  match gUser sess db with
  | none => (unauthorizedRedirect, db)
  | some g =>
    match db.users.find? (fun u => u.id == follow_id) with
    | none => (.notFound, db)
    | some _ =>
      let follows' := db.follows ++
        [{ user_being_followed_id := follow_id, user_following_id := g.id }]
      if followsUnique follows' then
        (.redirect none, { db with follows := follows' })
      else
        (.integrityError, db)

/-- `stop_following` route (`app.py`): auth gate; `User.query.get` (no
404); `g.user.following.remove(followed_user)` raises `ValueError` when
the edge (or the user) is absent, and that exception is unhandled. -/
def stop_following (follow_id : Nat) (sess : Option Nat) (db : DB) : Outcome × DB :=
  match gUser sess db with
  | none => (unauthorizedRedirect, db)
  | some g =>
    match db.users.find? (fun u => u.id == follow_id) with
    | none => (.valueError, db)
    | some _ =>
      let edge : Follow := { user_being_followed_id := follow_id, user_following_id := g.id }
      if edge ∈ db.follows then
        (.redirect none, { db with follows := db.follows.filter (fun f => f ≠ edge) })
      else
        (.valueError, db)

/-- `profile` route, submission path (`app.py`): auth gate; on a valid
form, re-authenticate with the supplied password; on success overwrite
username, email, image, header image and bio and commit (uniqueness
violations are uncaught here); on failure flash "invalid password". -/
def profile (sess : Option Nat) (formValid : Bool)
    (fUsername fEmail fImage fHeader fBio : String) (fPassword : List Char)
    (db : DB) : Outcome × DB :=
  match gUser sess db with
  | none => (unauthorizedRedirect, db)
  | some g =>
    if formValid then
      match User_authenticate g.username fPassword db with
      | some _ =>
        let users' := db.users.map (fun u =>
          if u.id == g.id then
            { u with username := fUsername, email := fEmail, image_url := fImage,
                     header_image_url := fHeader, bio := fBio }
          else u)
        if usersUnique users' then
          (.redirect (some "Profile updated successfully!"), { db with users := users' })
        else
          (.integrityError, db)
      | none => (.redirect (some "invalid password"), db)
    else
      (.render none, db)

/-- `delete_user` route (`app.py`): auth gate; logout;
`db.session.delete(g.user)` and commit.  `User.messages =
db.relationship('Message')` carries no delete cascade and no
`passive_deletes`, so before deleting the user row the ORM issues
`UPDATE messages SET user_id = NULL` for every owned message; the
column is NOT NULL, so a user owning any message hits an uncaught
IntegrityError and the whole transaction rolls back.  For a user with
no messages the commit succeeds: the user row goes, and the secondary
relationships remove both directions of follow edges and the user's
like rows. -/
def delete_user (sess : Option Nat) (db : DB) : Outcome × DB :=
  match gUser sess db with
  | none => (unauthorizedRedirect, db)
  | some g =>
    if db.messages.any (fun m => m.user_id == g.id) then
      (.integrityError, db)
    else
      (.redirect none,
        { users := db.users.filter (fun u => u.id ≠ g.id)
          messages := db.messages
          follows := db.follows.filter (fun f =>
            f.user_being_followed_id ≠ g.id ∧ f.user_following_id ≠ g.id)
          likes := db.likes.filter (fun l => l.user_id ≠ g.id) })

/-- `messages_add` route, submission path (`app.py`): auth gate; on a
valid form build `Message(text=...)` — id from the sequence, timestamp
from the module-load-time column default — append it to the user's
messages and commit (`db.String(140)` rejects longer text at commit,
uncaught here). -/
def messages_add (moduleLoadTime newId : Nat) (sess : Option Nat)
    (formValid : Bool) (text : String) (db : DB) : Outcome × DB :=
  match gUser sess db with
  | none => (unauthorizedRedirect, db)
  | some g =>
    if formValid then
      let msg := createMessage moduleLoadTime moduleLoadTime newId text g.id none
      if text.length ≤ 140 then
        (.redirect none, { db with messages := db.messages ++ [msg] })
      else
        (.integrityError, db)
    else
      (.render none, db)

/-- `messages_destroy` route (`app.py`): `POST /messages/<id>/delete`.
The only check is the auth gate; ownership of the message is never
compared against `g.user`.  `Message.query.get` may return `None`, and
`db.session.delete(None)` raises (unhandled).  Deleting the message
cascades to like rows referencing it. -/
def messages_destroy (message_id : Nat) (sess : Option Nat) (db : DB) :
    Outcome × DB :=
  match gUser sess db with
  | none => (unauthorizedRedirect, db)
  | some _ =>
    match db.messages.find? (fun m => m.id == message_id) with
    | none => (.unmappedInstanceError, db)
    | some _ =>
      (.redirect none,
        { db with messages := db.messages.filter (fun m => m.id ≠ message_id)
                  likes := db.likes.filter (fun l => l.message_id ≠ message_id) })

/-- `homepage` route (`app.py`): for a logged-in user, the feed query
`Message JOIN Follows ON Message.user_id == Follows.user_being_followed_id`
filtered by `Message.user_id == g.user.id OR Follows.user_following_id
== g.user.id`, ordered by timestamp descending, limited to 100.  The
inner join yields one row per (message, follow-edge-to-its-author)
pair; the SQL applies ORDER BY and LIMIT to those rows, and the legacy
`Query.all()` then collapses duplicate entity rows to one. -/
def homepage (sess : Option Nat) (db : DB) : Outcome × DB :=
  match gUser sess db with
  | none => (.renderPage, db)
  | some g =>
    let rows := db.messages.flatMap (fun m =>
      (db.follows.filter (fun f => f.user_being_followed_id == m.user_id)).map
        (fun f => (m, f)))
    let rows := rows.filter (fun mf =>
      mf.1.user_id == g.id || mf.2.user_following_id == g.id)
    let msgs := dedupKeepFirst ((orderByTimestampDesc (rows.map Prod.fst)).take 100)
    (.renderMessages msgs, db)

/-- Core of `toggle_like`'s state change (`app.py`): `message in
g.user.likes` decides between removing the like row and appending a
fresh one. -/
def toggledLikes (uid mid : Nat) (likes : List Like) : List Like :=
  if likes.any (likeMatches uid mid) then
    likes.filter (fun l => !(likeMatches uid mid l))
  else
    likes ++ [{ user_id := uid, message_id := mid }]

/-- The likes table after the commit inside `toggle_like`: the toggled
rows when they satisfy the UNIQUE constraint, the rolled-back original
table otherwise. -/
def toggleCommitLikes (uid mid : Nat) (likes : List Like) : List Like :=
  if likesUnique (toggledLikes uid mid likes) then toggledLikes uid mid likes
  else likes

/-- `toggle_like` route (`app.py`): `POST /users/add_like/<msg_id>`.
Auth gate; 404 on a missing message; self-likes are refused with a
flash before any state change; otherwise membership of the message in
`g.user.likes` decides between removing and appending the like row, and
the commit enforces the UNIQUE constraint on `likes.message_id`
(uncaught on violation). -/
def toggle_like (msg_id : Nat) (sess : Option Nat) (db : DB) : Outcome × DB :=
  match gUser sess db with
  | none => (unauthorizedRedirect, db)
  | some g =>
    match db.messages.find? (fun m => m.id == msg_id) with
    | none => (.notFound, db)
    | some message =>
      if message.user_id == g.id then
        (.redirect (some "You cannot like your own warble."), db)
      else
        let likes' := toggledLikes g.id message.id db.likes
        if likesUnique likes' then
          (.redirect none, { db with likes := likes' })
        else
          (.integrityError, db)

/-- Store-side step for iterated calls to `toggle_like`. -/
def toggleStep (msg_id : Nat) (sess : Option Nat) (db : DB) : DB :=
  (toggle_like msg_id sess db).2

/-- `n` successive requests to `toggle_like` with the same arguments. -/
def toggleIter (msg_id : Nat) (sess : Option Nat) : Nat → DB → DB
  | 0, db => db
  | n + 1, db => toggleIter msg_id sess n (toggleStep msg_id sess db)

/-! ### The store-touching operations, enumerated -/

/-- One request to any of the embedded view functions, with its route
arguments, session and (for form routes) submitted form data.  `login`
and `logout` touch only the session store, never the database, and so
have no entry here. -/
inductive Op where
  | signupR (newId salt : Nat) (username email : String) (pw : List Char)
      (image_url : String)
  | usersLikesR (user_id : Nat) (sess : Option Nat)
  | showFollowingR (user_id : Nat) (sess : Option Nat)
  | usersFollowersR (user_id : Nat) (sess : Option Nat)
  | addFollowR (follow_id : Nat) (sess : Option Nat)
  | stopFollowingR (follow_id : Nat) (sess : Option Nat)
  | profileR (sess : Option Nat) (formValid : Bool)
      (fUsername fEmail fImage fHeader fBio : String) (fPassword : List Char)
  | deleteUserR (sess : Option Nat)
  | messagesAddR (moduleLoadTime newId : Nat) (sess : Option Nat)
      (formValid : Bool) (text : String)
  | messagesDestroyR (message_id : Nat) (sess : Option Nat)
  | toggleLikeR (msg_id : Nat) (sess : Option Nat)
  | homepageR (sess : Option Nat)

/-- Dispatch an `Op` to its view function. -/
def applyOp : Op → DB → Outcome × DB
  | .signupR newId salt username email pw image_url, db =>
    signup_route newId salt username email pw image_url db
  | .usersLikesR user_id sess, db => users_likes user_id sess db
  | .showFollowingR user_id sess, db => show_following user_id sess db
  | .usersFollowersR user_id sess, db => users_followers user_id sess db
  | .addFollowR follow_id sess, db => add_follow follow_id sess db
  | .stopFollowingR follow_id sess, db => stop_following follow_id sess db
  | .profileR sess fv fu fe fi fh fb fp, db => profile sess fv fu fe fi fh fb fp db
  | .deleteUserR sess, db => delete_user sess db
  | .messagesAddR lt newId sess fv text, db => messages_add lt newId sess fv text db
  | .messagesDestroyR message_id sess, db => messages_destroy message_id sess db
  | .toggleLikeR msg_id sess, db => toggle_like msg_id sess db
  | .homepageR sess, db => homepage sess db

/-! ### Concrete stores for counterexamples and witnesses -/

/-- Fresh store, before any signup. -/
def emptyDB : DB := { users := [], messages := [], follows := [], likes := [] }

/-- Concrete user row with the column defaults. -/
def mkUser (id : Nat) (username email : String) : UserRec :=
  { id := id
    email := email
    username := username
    image_url := "/static/images/default-pic.png"
    header_image_url := "/static/images/warbler-hero.jpg"
    bio := ""
    location := ""
    password := generate_password_hash id ['p', 'w'] }

/-- Message used in the C1 store: authored by user 1. -/
def msgC1 : Message := { id := 10, text := "hi", timestamp := 5, user_id := 1 }

/-- C1 store: two users; user 1 owns message 10; user 2 is logged in. -/
def exDbC1 : DB :=
  { users := [mkUser 1 "alice" "a@x.com", mkUser 2 "bob" "b@x.com"]
    messages := [msgC1]
    follows := []
    likes := [] }

/-- Message used in the C2 stores: authored by user 1. -/
def msgC2 : Message := { id := 1, text := "own message", timestamp := 5, user_id := 1 }

/-- C2 store: one user with one message and no follow edges at all. -/
def exDbC2a : DB :=
  { users := [mkUser 1 "alice" "a@x.com"]
    messages := [msgC2]
    follows := []
    likes := [] }

/-- C2 store: user 1 has one message and two followers (users 2, 3). -/
def exDbC2b : DB :=
  { users := [mkUser 1 "alice" "a@x.com", mkUser 2 "bob" "b@x.com",
              mkUser 3 "carol" "c@x.com"]
    messages := [msgC2]
    follows := [{ user_being_followed_id := 1, user_following_id := 2 },
                { user_being_followed_id := 1, user_following_id := 3 }]
    likes := [] }

/-- C3 store: a single existing user, nobody logged in. -/
def exDbC3 : DB :=
  { users := [mkUser 1 "alice" "a@x.com"]
    messages := []
    follows := []
    likes := [] }

/-- C5 store: user 2 is logged in; user 1 owns message 10; one like. -/
def exDbC5 : DB :=
  { users := [mkUser 1 "alice" "a@x.com", mkUser 2 "bob" "b@x.com"]
    messages := [{ id := 10, text := "hi", timestamp := 5, user_id := 1 }]
    follows := []
    likes := [{ user_id := 2, message_id := 10 }] }

/-- Message used in the C6 store: authored by user 1. -/
def msgC6 : Message := { id := 10, text := "hi", timestamp := 5, user_id := 1 }

/-- C6 store: user 2 (logged in) already likes message 10 of user 1. -/
def exDbC6 : DB :=
  { users := [mkUser 1 "alice" "a@x.com", mkUser 2 "bob" "b@x.com"]
    messages := [msgC6]
    follows := []
    likes := [{ user_id := 2, message_id := 10 }] }

/-- Message used in the C7 store: authored by user 1 itself. -/
def msgC7 : Message := { id := 10, text := "hi", timestamp := 5, user_id := 1 }

/-- C7 store: user 1 is logged in and owns message 10. -/
def exDbC7 : DB :=
  { users := [mkUser 1 "alice" "a@x.com"]
    messages := [msgC7]
    follows := []
    likes := [] }

/-- Message liked by user 2 in the C8 store (authored by user 3). -/
def msgC8A : Message := { id := 10, text := "liked by two", timestamp := 5, user_id := 3 }

/-- Message liked by user 1 in the C8 store (authored by user 4). -/
def msgC8B : Message := { id := 11, text := "liked by one", timestamp := 6, user_id := 4 }

/-- C8 store: user 2 likes message 10, user 1 (the viewer) likes
message 11. -/
def exDbC8 : DB :=
  { users := [mkUser 1 "alice" "a@x.com", mkUser 2 "bob" "b@x.com",
              mkUser 3 "carol" "c@x.com", mkUser 4 "dave" "d@x.com"]
    messages := [msgC8A, msgC8B]
    follows := []
    likes := [{ user_id := 2, message_id := 10 }, { user_id := 1, message_id := 11 }] }

/-- Message used in the C10 store: authored by user 1. -/
def msgC10 : Message := { id := 10, text := "hi", timestamp := 5, user_id := 1 }

/-- C10 store: user 3 already likes message 10; user 2 is logged in and
does not like it. -/
def exDbC10 : DB :=
  { users := [mkUser 1 "alice" "a@x.com", mkUser 2 "bob" "b@x.com",
              mkUser 3 "carol" "c@x.com"]
    messages := [msgC10]
    follows := []
    likes := [{ user_id := 3, message_id := 10 }] }

/-! ## Helper lemmas -/

/-- A like row matches `(uid, mid)` exactly when it is that row. -/
theorem likeMatches_iff {uid mid : Nat} {l : Like} :
    likeMatches uid mid l = true ↔ l = { user_id := uid, message_id := mid } := by
  cases l
  simp [likeMatches, Like.mk.injEq]

/-- The salt segment of a generated hash reads back exactly. -/
theorem takeWhile_salt (n : Nat) (rest : List Char) :
    (List.replicate n 'a' ++ '$' :: rest).takeWhile (fun c => c ≠ '$') =
      List.replicate n 'a' := by
  induction n with
  | zero => simp
  | succ k ih => simp [List.replicate_succ, ih]

/-- Verification succeeds on the hash generated from the same password:
bcrypt re-derives with the embedded salt and compares. -/
theorem check_generate (salt : Nat) (pw : List Char) :
    check_password_hash (generate_password_hash salt pw) pw = true := by
  have hdrop : (generate_password_hash salt pw).drop bcryptHeader.length =
      List.replicate salt 'a' ++ '$' :: pw := by
    unfold generate_password_hash
    exact List.drop_left _ _
  simp only [check_password_hash, hdrop, takeWhile_salt, List.length_replicate,
    beq_self_eq_true]

/-- A generated hash is never the plaintext password (it is strictly
longer). -/
theorem generate_ne (salt : Nat) (pw : List Char) :
    generate_password_hash salt pw ≠ pw := by
  intro h
  have hlen := congrArg List.length h
  simp [generate_password_hash, bcryptHeader] at hlen
  omega

/-- `find?` over an appended fresh element. -/
theorem find?_append_singleton {α : Type} {p : α → Bool} {l : List α} {a : α}
    (h : ∀ x ∈ l, ¬ p x) (ha : p a = true) : (l ++ [a]).find? p = some a := by
  rw [List.find?_append, List.find?_eq_none.mpr h]
  simp [List.find?_cons, ha]

/-! ## Claim C1 -/

/-- Claim C1 counterexample: in `exDbC1` the requester (user 2) is not
the owner of message 10 (user 1), yet the delete request does not
return Unauthorized and the message does not remain stored. -/
theorem c1_counterexample :
    (messages_destroy 10 (some 2) exDbC1).1 ≠ unauthorizedRedirect ∧
    msgC1.user_id ≠ 2 ∧
    (messages_destroy 10 (some 2) exDbC1).2.messages = [] := by
  decide

/-- Claim C1 (amended): `messages_destroy` checks authentication only;
every authenticated requester, owner or not, deletes any existing
message (it leaves the stored messages), while an anonymous requester
gets the uniform Unauthorized redirect with the store unchanged. -/
theorem c1_delete_requires_only_authentication :
    (∀ (db : DB) (mid uid : Nat) (g : UserRec) (m : Message),
      gUser (some uid) db = some g →
      db.messages.find? (fun x => x.id == mid) = some m →
      (messages_destroy mid (some uid) db).1 = Outcome.redirect none ∧
      m ∉ (messages_destroy mid (some uid) db).2.messages) ∧
    (∀ (db : DB) (mid : Nat),
      messages_destroy mid none db = (unauthorizedRedirect, db)) := by
  constructor
  · intro db mid uid g m hg hm
    have hmid : m.id = mid := by simpa using List.find?_some hm
    simp only [messages_destroy, hg, hm]
    refine ⟨trivial, ?_⟩
    intro hmem
    have := (List.mem_filter.mp hmem).2
    simp [hmid] at this
  · intro db mid
    rfl

/-- Claim C1 witness: the amended theorem applied to `exDbC1` with the
non-owner user 2 logged in. -/
theorem c1_witness :
    (messages_destroy 10 (some 2) exDbC1).1 = Outcome.redirect none ∧
    msgC1 ∉ (messages_destroy 10 (some 2) exDbC1).2.messages :=
  c1_delete_requires_only_authentication.1 exDbC1 10 2 (mkUser 2 "bob" "b@x.com")
    msgC1 (by decide) (by decide)

/-! ## Claim C2 -/

/-- Claim C2: the feed query inner-joins messages to the follow edges
of their author, so in `exDbC2a` (user 1 has no followers) user 1's own
message is dropped from user 1's feed, contradicting the claim that a
user's own messages are included even with no followers.  In `exDbC2b`
(user 1 has two followers) the duplicate joined rows are collapsed by
the legacy Query's entity deduplication and the own message shows once,
so the omission is the sole divergence. -/
theorem c2_feed_omits_own_without_followers :
    homepage (some 1) exDbC2a = (.renderMessages [], exDbC2a) ∧
    msgC2 ∈ exDbC2a.messages ∧ msgC2.user_id = 1 ∧
    homepage (some 1) exDbC2b = (.renderMessages [msgC2], exDbC2b) := by
  decide

/-! ## Claim C3 -/

/-- Claim C3 counterexample: the anonymous request to the likes page of
the existing user 1 does not produce the uniform Unauthorized redirect;
the handler falls through and returns `None`. -/
theorem c3_counterexample :
    (users_likes 1 none exDbC3).1 = Outcome.noResponse ∧
    (users_likes 1 none exDbC3).1 ≠ unauthorizedRedirect := by
  decide

/-- Claim C3 (amended): every authenticated-gated operation except the
likes page refuses an anonymous request with the uniform "Access
unauthorized." redirect and an unchanged store; the likes page instead
looks the path user up before any authentication check and never
produces the uniform notice (404 or a `None` response), though it too
leaves the store unchanged. -/
theorem c3_anonymous_gating :
    (∀ (db : DB) (uid : Nat), show_following uid none db = (unauthorizedRedirect, db)) ∧
    (∀ (db : DB) (uid : Nat), users_followers uid none db = (unauthorizedRedirect, db)) ∧
    (∀ (db : DB) (fid : Nat), add_follow fid none db = (unauthorizedRedirect, db)) ∧
    (∀ (db : DB) (fid : Nat), stop_following fid none db = (unauthorizedRedirect, db)) ∧
    (∀ (db : DB) (fv : Bool) (fu fe fi fh fb : String) (fp : List Char),
      profile none fv fu fe fi fh fb fp db = (unauthorizedRedirect, db)) ∧
    (∀ db : DB, delete_user none db = (unauthorizedRedirect, db)) ∧
    (∀ (db : DB) (lt nid : Nat) (fv : Bool) (t : String),
      messages_add lt nid none fv t db = (unauthorizedRedirect, db)) ∧
    (∀ (db : DB) (mid : Nat), messages_destroy mid none db = (unauthorizedRedirect, db)) ∧
    (∀ (db : DB) (mid : Nat), toggle_like mid none db = (unauthorizedRedirect, db)) ∧
    (∀ (db : DB) (uid : Nat), (users_likes uid none db).2 = db ∧
      (users_likes uid none db).1 ≠ unauthorizedRedirect) := by
  refine ⟨fun _ _ => rfl, fun _ _ => rfl, fun _ _ => rfl, fun _ _ => rfl,
    fun _ _ _ _ _ _ _ _ => rfl, fun _ => rfl, fun _ _ _ _ _ => rfl,
    fun _ _ => rfl, fun _ _ => rfl, ?_⟩
  intro db uid
  cases hfind : db.users.find? (fun u => u.id == uid) with
  | none => simp [users_likes, hfind, unauthorizedRedirect]
  | some u => simp [users_likes, hfind, gUser, unauthorizedRedirect]

/-! ## Claim C4 -/

/-- Claim C4: the `timestamp` column default is `datetime.utcnow()`
evaluated once at module load, so every message created without an
explicit timestamp carries the module-load constant: two messages
created at different clock times (5 and 10) get equal timestamps, and
neither equals its own creation time. -/
theorem c4_timestamp_is_module_load_constant :
    (∀ (moduleLoadTime now1 now2 id1 id2 u1 u2 : Nat) (t1 t2 : String),
      (createMessage moduleLoadTime now1 id1 t1 u1 none).timestamp =
        (createMessage moduleLoadTime now2 id2 t2 u2 none).timestamp) ∧
    (createMessage 0 5 1 "first" 1 none).timestamp =
      (createMessage 0 10 2 "second" 1 none).timestamp ∧
    (createMessage 0 5 1 "first" 1 none).timestamp ≠ 5 ∧ (5 : Nat) ≠ 10 := by
  exact ⟨fun _ _ _ _ _ _ _ _ _ => rfl, rfl, by decide, by decide⟩

/-! ## Claim C5 -/

/-- Uniqueness of liked message ids survives restriction to fewer rows. -/
theorem likesUnique_sublist {l₁ l₂ : List Like} (hs : List.Sublist l₁ l₂)
    (h : likesUnique l₂) : likesUnique l₁ :=
  List.Nodup.sublist (hs.map _) h

/-- The signup route never touches the likes table. -/
theorem signup_route_likes (newId salt : Nat) (username email : String)
    (pw : List Char) (image_url : String) (db : DB) :
    (signup_route newId salt username email pw image_url db).2.likes = db.likes := by
  simp only [signup_route]
  split <;> rfl

/-- The likes page is read-only. -/
theorem users_likes_snd (user_id : Nat) (sess : Option Nat) (db : DB) :
    (users_likes user_id sess db).2 = db := by
  simp only [users_likes]
  split
  · rfl
  · split <;> rfl

/-- The following page is read-only. -/
theorem show_following_snd (user_id : Nat) (sess : Option Nat) (db : DB) :
    (show_following user_id sess db).2 = db := by
  simp only [show_following]
  split
  · rfl
  · split <;> rfl

/-- The followers page is read-only. -/
theorem users_followers_snd (user_id : Nat) (sess : Option Nat) (db : DB) :
    (users_followers user_id sess db).2 = db := by
  simp only [users_followers]
  split
  · rfl
  · split <;> rfl

/-- The homepage is read-only. -/
theorem homepage_snd (sess : Option Nat) (db : DB) :
    (homepage sess db).2 = db := by
  simp only [homepage]
  split <;> rfl

/-- Following a user never touches the likes table. -/
theorem add_follow_likes (follow_id : Nat) (sess : Option Nat) (db : DB) :
    (add_follow follow_id sess db).2.likes = db.likes := by
  simp only [add_follow]
  split
  · rfl
  · split
    · rfl
    · split <;> rfl

/-- Unfollowing never touches the likes table. -/
theorem stop_following_likes (follow_id : Nat) (sess : Option Nat) (db : DB) :
    (stop_following follow_id sess db).2.likes = db.likes := by
  simp only [stop_following]
  split
  · rfl
  · split
    · rfl
    · split <;> rfl

/-- The profile update never touches the likes table. -/
theorem profile_likes (sess : Option Nat) (fv : Bool)
    (fu fe fi fh fb : String) (fp : List Char) (db : DB) :
    (profile sess fv fu fe fi fh fb fp db).2.likes = db.likes := by
  simp only [profile]
  split
  · rfl
  · split
    · split
      · split <;> rfl
      · rfl
    · rfl

/-- Posting a message never touches the likes table. -/
theorem messages_add_likes (lt nid : Nat) (sess : Option Nat) (fv : Bool)
    (t : String) (db : DB) :
    (messages_add lt nid sess fv t db).2.likes = db.likes := by
  simp only [messages_add]
  split
  · rfl
  · split
    · split <;> rfl
    · rfl

/-- Deleting a user either rolls back (owned messages hit the NOT NULL
column) or removes like rows only. -/
theorem delete_user_likes_sublist (sess : Option Nat) (db : DB) :
    List.Sublist (delete_user sess db).2.likes db.likes := by
  simp only [delete_user]
  split
  · exact List.Sublist.refl _
  · split
    · exact List.Sublist.refl _
    · exact List.filter_sublist _

/-- Deleting a message only removes like rows (cascade). -/
theorem messages_destroy_likes_sublist (message_id : Nat) (sess : Option Nat)
    (db : DB) : List.Sublist (messages_destroy message_id sess db).2.likes db.likes := by
  simp only [messages_destroy]
  split
  · exact List.Sublist.refl _
  · split
    · exact List.Sublist.refl _
    · exact List.filter_sublist _

/-- The like toggle commits only tables passing the UNIQUE check. -/
theorem toggle_like_likesUnique (msg_id : Nat) (sess : Option Nat) (db : DB)
    (h : likesUnique db.likes) : likesUnique (toggle_like msg_id sess db).2.likes := by
  simp only [toggle_like]
  split
  · exact h
  · split
    · exact h
    · split
      · exact h
      · split
        · assumption
        · exact h

/-- Claim C5: the empty store satisfies the one-like-per-message
constraint, and every embedded operation preserves it: in each
reachable store state a message id occurs in at most one like edge. -/
theorem c5_like_uniqueness_invariant :
    likesUnique ([] : List Like) ∧
    ∀ (op : Op) (db : DB), likesUnique db.likes →
      likesUnique (applyOp op db).2.likes := by
  refine ⟨by simp [likesUnique], ?_⟩
  intro op db h
  cases op with
  | signupR newId salt username email pw image_url =>
    rw [applyOp, signup_route_likes]; exact h
  | usersLikesR user_id sess => rw [applyOp, users_likes_snd]; exact h
  | showFollowingR user_id sess => rw [applyOp, show_following_snd]; exact h
  | usersFollowersR user_id sess => rw [applyOp, users_followers_snd]; exact h
  | addFollowR follow_id sess => rw [applyOp, add_follow_likes]; exact h
  | stopFollowingR follow_id sess => rw [applyOp, stop_following_likes]; exact h
  | profileR sess fv fu fe fi fh fb fp => rw [applyOp, profile_likes]; exact h
  | deleteUserR sess =>
    rw [applyOp]; exact likesUnique_sublist (delete_user_likes_sublist sess db) h
  | messagesAddR lt newId sess fv text =>
    rw [applyOp, messages_add_likes]; exact h
  | messagesDestroyR message_id sess =>
    rw [applyOp]
    exact likesUnique_sublist (messages_destroy_likes_sublist message_id sess db) h
  | toggleLikeR msg_id sess =>
    rw [applyOp]; exact toggle_like_likesUnique msg_id sess db h
  | homepageR sess => rw [applyOp, homepage_snd]; exact h

/-- Claim C5 witness: the invariant holds in `exDbC5` and is preserved
by user 2 toggling its like of message 10 away. -/
theorem c5_witness :
    likesUnique (applyOp (Op.toggleLikeR 10 (some 2)) exDbC5).2.likes := by
  exact c5_like_uniqueness_invariant.2 (Op.toggleLikeR 10 (some 2)) exDbC5 (by decide)

/-! ## Claim C7 -/

/-- Claim C7: a request by the author of a message to like it is
refused with the "You cannot like your own warble." flash and no state
change, and any number of repeated attempts leaves the store exactly as
it was — a self-like never creates a like edge. -/
theorem c7_self_like_rejected (db : DB) (mid uid : Nat) (g : UserRec) (m : Message)
    (hg : gUser (some uid) db = some g)
    (hm : db.messages.find? (fun x => x.id == mid) = some m)
    (hself : m.user_id = uid) :
    toggle_like mid (some uid) db =
      (Outcome.redirect (some "You cannot like your own warble."), db) ∧
    ∀ n, toggleIter mid (some uid) n db = db := by
  have hgid : g.id = uid := by simpa using List.find?_some hg
  have hone : toggle_like mid (some uid) db =
      (Outcome.redirect (some "You cannot like your own warble."), db) := by
    have hcond : (m.user_id == g.id) = true := by simp [hself, hgid]
    simp [toggle_like, hg, hm, hcond]
  refine ⟨hone, ?_⟩
  intro n
  induction n with
  | zero => rfl
  | succ k ih => simp [toggleIter, toggleStep, hone, ih]

/-- Claim C7 witness: user 1 cannot like its own message 10, even over
three repeated attempts. -/
theorem c7_witness :
    toggle_like 10 (some 1) exDbC7 =
      (Outcome.redirect (some "You cannot like your own warble."), exDbC7) ∧
    toggleIter 10 (some 1) 3 exDbC7 = exDbC7 := by
  have h := c7_self_like_rejected exDbC7 10 1 (mkUser 1 "alice" "a@x.com") msgC7
    (by decide) (by decide) (by decide)
  exact ⟨h.1, h.2 3⟩

/-! ## Claim C8 -/

/-- Claim C8: in `exDbC8` the likes page for user 2, viewed by user 1,
renders exactly the message liked by the *viewer* (message 11) even
though user 2 likes message 10 and not message 11 — the query filters
on `g.user.id`, not on the path's `user_id`. -/
theorem c8_likes_page_uses_viewer :
    users_likes 2 (some 1) exDbC8 = (.renderMessages [msgC8B], exDbC8) ∧
    ({ user_id := 2, message_id := msgC8A.id } : Like) ∈ exDbC8.likes ∧
    ({ user_id := 2, message_id := msgC8B.id } : Like) ∉ exDbC8.likes := by
  decide

/-! ## Claim C6 -/

/-- Like-table-level involution: starting from a table satisfying the
UNIQUE constraint, two committed toggles of the same (user, message)
pair restore the original membership. -/
theorem toggleCommit_twice_mem (uid mid : Nat) (L : List Like)
    (h : likesUnique L) :
    ∀ l, l ∈ toggleCommitLikes uid mid (toggleCommitLikes uid mid L) ↔ l ∈ L := by
  by_cases hmem : L.any (likeMatches uid mid) = true
  · -- the pair is already liked: remove then re-add
    obtain ⟨y, hy, hmatch⟩ := List.any_eq_true.mp hmem
    rw [likeMatches_iff] at hmatch
    subst hmatch
    have h1 : toggledLikes uid mid L = L.filter (fun l => !(likeMatches uid mid l)) := by
      rw [toggledLikes, if_pos hmem]
    have hFnd : likesUnique (L.filter (fun l => !(likeMatches uid mid l))) :=
      likesUnique_sublist (List.filter_sublist L) h
    have hstep1 : toggleCommitLikes uid mid L =
        L.filter (fun l => !(likeMatches uid mid l)) := by
      rw [toggleCommitLikes, h1, if_pos hFnd]
    have hmemF : (L.filter (fun l => !(likeMatches uid mid l))).any
        (likeMatches uid mid) = false := by
      rw [List.any_eq_false]
      intro x hx
      have := (List.mem_filter.mp hx).2
      simp at this
      simp [this]
    have h2 : toggledLikes uid mid (L.filter (fun l => !(likeMatches uid mid l))) =
        L.filter (fun l => !(likeMatches uid mid l)) ++
          [{ user_id := uid, message_id := mid }] := by
      rw [toggledLikes, if_neg (by simp [hmemF])]
    have hmidF : mid ∉ (L.filter (fun l => !(likeMatches uid mid l))).map
        (fun l => l.message_id) := by
      intro hc
      obtain ⟨z, hz, hzid⟩ := List.mem_map.mp hc
      have hzL : z ∈ L := (List.mem_filter.mp hz).1
      have hznm : ¬ likeMatches uid mid z = true := by
        have := (List.mem_filter.mp hz).2
        simp at this
        simp [this]
      have heq : z = { user_id := uid, message_id := mid } :=
        List.inj_on_of_nodup_map h hzL hy (by simp [hzid])
      exact hznm (by rw [heq, likeMatches_iff])
    have hFx : likesUnique (L.filter (fun l => !(likeMatches uid mid l)) ++
        [{ user_id := uid, message_id := mid }]) := by
      have : ((L.filter (fun l => !(likeMatches uid mid l))).map
          (fun l => l.message_id) ++ [mid]).Nodup := by
        rw [List.nodup_append]
        exact ⟨hFnd, List.nodup_singleton _,
          fun a ha hb => hmidF (by rwa [List.mem_singleton.mp hb] at ha)⟩
      simpa [likesUnique] using this
    have hstep2 : toggleCommitLikes uid mid
        (L.filter (fun l => !(likeMatches uid mid l))) =
        L.filter (fun l => !(likeMatches uid mid l)) ++
          [{ user_id := uid, message_id := mid }] := by
      rw [toggleCommitLikes, h2, if_pos hFx]
    intro l
    rw [hstep1, hstep2]
    constructor
    · intro hl
      rcases List.mem_append.mp hl with h' | h'
      · exact (List.mem_filter.mp h').1
      · rw [List.mem_singleton.mp h']
        exact hy
    · intro hl
      by_cases hcase : l = { user_id := uid, message_id := mid }
      · exact List.mem_append_right _ (by rw [hcase]; exact List.mem_singleton_self _)
      · refine List.mem_append_left _ (List.mem_filter.mpr ⟨hl, ?_⟩)
        have hne : likeMatches uid mid l = false := by
          cases hbool : likeMatches uid mid l with
          | false => rfl
          | true => exact absurd (likeMatches_iff.mp hbool) hcase
        simp [hne]
  · -- the pair is not yet liked: add then (if committed) remove
    have hmemf : L.any (likeMatches uid mid) = false := by simpa using hmem
    have h1 : toggledLikes uid mid L =
        L ++ [{ user_id := uid, message_id := mid }] := by
      rw [toggledLikes, if_neg (by simp [hmemf])]
    by_cases hnd : likesUnique (L ++ [{ user_id := uid, message_id := mid }])
    · have hstep1 : toggleCommitLikes uid mid L =
          L ++ [{ user_id := uid, message_id := mid }] := by
        rw [toggleCommitLikes, h1, if_pos hnd]
      have hany2 : (L ++ [({ user_id := uid, message_id := mid } : Like)]).any
          (likeMatches uid mid) = true := by
        simp [List.any_append, likeMatches]
      have hfilter : (L ++ [({ user_id := uid, message_id := mid } : Like)]).filter
          (fun l => !(likeMatches uid mid l)) = L := by
        rw [List.filter_append]
        have hL : L.filter (fun l => !(likeMatches uid mid l)) = L := by
          rw [List.filter_eq_self]
          intro a ha
          have := List.any_eq_false.mp hmemf a ha
          simp [this]
        have hx : ([({ user_id := uid, message_id := mid } : Like)]).filter
            (fun l => !(likeMatches uid mid l)) = [] := by
          simp [likeMatches]
        rw [hL, hx, List.append_nil]
      have h2 : toggledLikes uid mid
          (L ++ [{ user_id := uid, message_id := mid }]) = L := by
        rw [toggledLikes, if_pos hany2, hfilter]
      have hstep2 : toggleCommitLikes uid mid
          (L ++ [{ user_id := uid, message_id := mid }]) = L := by
        rw [toggleCommitLikes, h2, if_pos h]
      intro l
      rw [hstep1, hstep2]
    · have hstep1 : toggleCommitLikes uid mid L = L := by
        rw [toggleCommitLikes, h1, if_neg hnd]
      intro l
      rw [hstep1, hstep1]

/-- One non-self `toggle_like` request rewrites only the likes table,
to `toggleCommitLikes`. -/
theorem toggleStep_likes (db : DB) (mid uid : Nat) (g : UserRec) (m : Message)
    (hg : gUser (some uid) db = some g)
    (hm : db.messages.find? (fun x => x.id == mid) = some m)
    (hnotown : m.user_id ≠ uid) :
    toggleStep mid (some uid) db =
      { db with likes := toggleCommitLikes g.id m.id db.likes } := by
  have hgid : g.id = uid := by simpa using List.find?_some hg
  have hcond : (m.user_id == g.id) = false := by
    rw [hgid]
    exact beq_eq_false_iff_ne.mpr hnotown
  simp only [toggleStep, toggle_like, hg, hm, hcond, Bool.false_eq_true,
    if_false]
  rw [toggleCommitLikes]
  by_cases hnd : likesUnique (toggledLikes g.id m.id db.likes)
  · rw [if_pos hnd, if_pos hnd]
  · rw [if_neg hnd, if_neg hnd]

/-- Claim C6: for an authenticated user `uid` and an existing message
`mid` not authored by `uid`, two successive `toggle_like` requests
return the like-edge set to its original membership. -/
theorem c6_toggle_like_involutive (db : DB) (mid uid : Nat) (g : UserRec)
    (m : Message)
    (hinv : likesUnique db.likes)
    (hg : gUser (some uid) db = some g)
    (hm : db.messages.find? (fun x => x.id == mid) = some m)
    (hnotown : m.user_id ≠ uid) :
    ∀ l : Like, l ∈ (toggleIter mid (some uid) 2 db).likes ↔ l ∈ db.likes := by
  have hstep1 := toggleStep_likes db mid uid g m hg hm hnotown
  have hg1 : gUser (some uid)
      { db with likes := toggleCommitLikes g.id m.id db.likes } = some g := hg
  have hm1 : ({ db with likes := toggleCommitLikes g.id m.id db.likes } : DB).messages.find?
      (fun x => x.id == mid) = some m := hm
  have hstep2 := toggleStep_likes _ mid uid g m hg1 hm1 hnotown
  have h2 : toggleIter mid (some uid) 2 db =
      toggleStep mid (some uid) (toggleStep mid (some uid) db) := rfl
  rw [h2, hstep1, hstep2]
  intro l
  exact toggleCommit_twice_mem g.id m.id db.likes hinv l

/-- Claim C6 witness: user 2 toggling its like of user 1's message 10
twice leaves the like edge present exactly as before. -/
theorem c6_witness :
    (({ user_id := 2, message_id := 10 } : Like) ∈
        (toggleIter 10 (some 2) 2 exDbC6).likes ↔
      ({ user_id := 2, message_id := 10 } : Like) ∈ exDbC6.likes) :=
  c6_toggle_like_involutive exDbC6 10 2 (mkUser 2 "bob" "b@x.com") msgC6
    (by decide) (by decide) (by decide) (by decide)
    { user_id := 2, message_id := 10 }

/-! ## Claim C9 -/

/-- Claim C9: a signup with a username and email that are not already
stored commits, the stored credential differs from the plaintext
password, and authenticating with the username and plaintext afterwards
returns exactly the new user. -/
theorem c9_signup_then_authenticate (db : DB) (newId salt : Nat)
    (username email : String) (pw : List Char) (image_url : String)
    (husers : usersUnique db.users)
    (hu : ∀ u ∈ db.users, u.username ≠ username)
    (he : ∀ u ∈ db.users, u.email ≠ email) :
    (signup_route newId salt username email pw image_url db).1 =
      Outcome.redirect none ∧
    (signup_route newId salt username email pw image_url db).2.users =
      db.users ++ [User_signup newId salt username email pw image_url] ∧
    (User_signup newId salt username email pw image_url).password ≠ pw ∧
    User_authenticate username pw
        (signup_route newId salt username email pw image_url db).2 =
      some (User_signup newId salt username email pw image_url) := by
  have hcommit : usersUnique (db.users ++
      [User_signup newId salt username email pw image_url]) := by
    constructor
    · rw [List.map_append, List.nodup_append]
      refine ⟨husers.1, List.nodup_singleton _, ?_⟩
      intro a ha hb
      obtain ⟨u, hmem, hau⟩ := List.mem_map.mp ha
      have : a = username := by simpa using hb
      exact hu u hmem (by rw [hau, this])
    · rw [List.map_append, List.nodup_append]
      refine ⟨husers.2, List.nodup_singleton _, ?_⟩
      intro a ha hb
      obtain ⟨u, hmem, hau⟩ := List.mem_map.mp ha
      have : a = email := by simpa using hb
      exact he u hmem (by rw [hau, this])
  have hroute : signup_route newId salt username email pw image_url db =
      (Outcome.redirect none,
        { db with users := db.users ++
            [User_signup newId salt username email pw image_url] }) := by
    simp only [signup_route]
    rw [if_pos hcommit]
  have hfind : (db.users ++ [User_signup newId salt username email pw image_url]).find?
      (fun u => u.username == username) =
      some (User_signup newId salt username email pw image_url) :=
    find?_append_singleton (fun x hx => by simpa using hu x hx) (by simp [User_signup])
  refine ⟨by rw [hroute], by rw [hroute], generate_ne salt pw, ?_⟩
  rw [hroute]
  simp only [User_authenticate, hfind]
  rw [if_pos]
  exact check_generate salt pw

/-- Claim C9 witness: signing "alice" up on the empty store. -/
theorem c9_witness :
    (signup_route 1 3 "alice" "a@x.com" ['p', 'w'] "img" emptyDB).1 =
      Outcome.redirect none ∧
    (signup_route 1 3 "alice" "a@x.com" ['p', 'w'] "img" emptyDB).2.users =
      emptyDB.users ++ [User_signup 1 3 "alice" "a@x.com" ['p', 'w'] "img"] ∧
    (User_signup 1 3 "alice" "a@x.com" ['p', 'w'] "img").password ≠ ['p', 'w'] ∧
    User_authenticate "alice" ['p', 'w']
        (signup_route 1 3 "alice" "a@x.com" ['p', 'w'] "img" emptyDB).2 =
      some (User_signup 1 3 "alice" "a@x.com" ['p', 'w'] "img") :=
  c9_signup_then_authenticate emptyDB 1 3 "alice" "a@x.com" ['p', 'w'] "img"
    (by decide) (by decide) (by decide)

/-! ## Claim C10 -/

/-- Claim C10: when some other user `w` already holds the unique like
edge for message `mid`, an authenticated non-author's `toggle_like`
attempts the insert and the commit fails with the uncaught uniqueness
violation, leaving the store unchanged. -/
theorem c10_second_like_integrity_error (db : DB) (mid uid w : Nat)
    (g : UserRec) (m : Message)
    (hinv : likesUnique db.likes)
    (hg : gUser (some uid) db = some g)
    (hm : db.messages.find? (fun x => x.id == mid) = some m)
    (hnotown : m.user_id ≠ uid)
    (hw : ({ user_id := w, message_id := m.id } : Like) ∈ db.likes)
    (hwne : w ≠ uid) :
    toggle_like mid (some uid) db = (Outcome.integrityError, db) := by
  have hgid : g.id = uid := by simpa using List.find?_some hg
  have hany : db.likes.any (likeMatches g.id m.id) = false := by
    rw [List.any_eq_false]
    intro y hy hcontra
    rw [likeMatches_iff] at hcontra
    subst hcontra
    have heq := List.inj_on_of_nodup_map hinv hy hw rfl
    have : g.id = w := congrArg Like.user_id heq
    exact hwne (by rw [← this, hgid])
  have htoggled : toggledLikes g.id m.id db.likes =
      db.likes ++ [({ user_id := g.id, message_id := m.id } : Like)] := by
    rw [toggledLikes, if_neg (by simp [hany])]
  have hfail : ¬ likesUnique (db.likes ++
      [({ user_id := g.id, message_id := m.id } : Like)]) := by
    intro hnd
    have hnd2 : (db.likes.map (fun l => l.message_id) ++ [m.id]).Nodup := by
      simpa [likesUnique] using hnd
    have hmem : m.id ∈ db.likes.map (fun l => l.message_id) :=
      List.mem_map.mpr ⟨{ user_id := w, message_id := m.id }, hw, rfl⟩
    exact (List.nodup_append.mp hnd2).2.2 hmem (List.mem_singleton_self _)
  have hcond : (m.user_id == g.id) = false := by
    rw [hgid]
    exact beq_eq_false_iff_ne.mpr hnotown
  simp only [toggle_like, hg, hm, hcond, Bool.false_eq_true, if_false]
  rw [htoggled, if_neg hfail]

/-- Claim C10 witness: user 2 trying to like message 10 while user 3
already holds its unique like edge. -/
theorem c10_witness :
    toggle_like 10 (some 2) exDbC10 = (Outcome.integrityError, exDbC10) :=
  c10_second_like_integrity_error exDbC10 10 2 3 (mkUser 2 "bob" "b@x.com")
    msgC10 (by decide) (by decide) (by decide) (by decide) (by decide) (by decide)
